import Mathlib

/-!
Shallow embedding of the travel-emissions calculator
(`emissions_bike_car.py`) and verification of its specification.

The script's numeric literals are decimal constants; we embed all
arithmetic over `ℚ`, which represents every constant exactly.  The
string-keyed Python dicts become functions on a closed inductive type
`Mode`; their insertion order (which keys every iteration in the script)
is recorded in `modeOrder`.
-/

namespace EmissionsModel

/-- The eight transport modes offered by the selectbox (lines 11-20). -/
inductive Mode
  | Walking
  | StandardBike
  | LightweightBike
  | EBike
  | SmallCar
  | ElectricCar
  | Bus
  | ElectricTrain
deriving DecidableEq, Repr

/-- The two diet options of the radio widget (line 35). -/
inductive Diet
  | AverageWestern
  | LowCarbonPlantBased
deriving DecidableEq, Repr

/-- The two view options of the radio widget (line 29). -/
inductive View
  | PerTrip
  | PerYear
deriving DecidableEq, Repr

open Mode Diet View

/-- Insertion order of the `embodied_emissions` dict (lines 47-56), which
also determines the iteration order of `EMISSIONS_FACTORS` (line 60) and
of the `emissions_data` comprehension (lines 86-89). -/
def modeOrder : List Mode :=
  [Walking, StandardBike, LightweightBike, EBike,
   SmallCar, ElectricCar, Bus, ElectricTrain]

/-- `KCAL_PER_KM` dict (lines 39-44): calorie burn per km; only the four
food-powered modes have entries, so the result is an `Option`;
`.getD 0` embeds the script's `KCAL_PER_KM.get(mode, 0)` (line 61). -/
def KCAL_PER_KM : Mode → Option ℚ
  | Walking => some 80
  | StandardBike => some 50
  | LightweightBike => some 40
  | EBike => some 20
  | _ => none

/-- `embodied_emissions` dict (lines 47-56). -/
def embodied_emissions : Mode → ℚ
  | Walking => 0.0
  | StandardBike => 0.02
  | LightweightBike => 0.016
  | EBike => 0.05
  | SmallCar => 0.44
  | ElectricCar => 0.24
  | Bus => 0.12
  | ElectricTrain => 0.00935

/-- Line 36: `food_emission_per_kcal = 0.0025 if diet_type == "Average
Western" else 0.0012`. -/
def food_emission_per_kcal : Diet → ℚ
  | AverageWestern => 0.0025
  | LowCarbonPlantBased => 0.0012

/-- Lines 59-62: for every mode of `embodied_emissions`,
`EMISSIONS_FACTORS[mode] = embodied_emissions[mode] +
KCAL_PER_KM.get(mode, 0) * food_emission_per_kcal`. -/
def EMISSIONS_FACTORS (diet : Diet) (mode : Mode) : ℚ :=
  embodied_emissions mode + (KCAL_PER_KM mode).getD 0 * food_emission_per_kcal diet

/-- The list `["Small Car", "Electric Car"]` used in the membership tests
on lines 23, 73, 87 and 120. -/
def carTypes : List Mode := [SmallCar, ElectricCar]

/-- Lines 23-26: `passengers` is the slider value when the chosen mode is
a car type and `1` otherwise. -/
def resolvePassengers (vehicle : Mode) (slider : ℕ) : ℕ :=
  if vehicle ∈ carTypes then slider else 1

/-- Line 30. -/
def trips_per_year : ℚ := 520

/-- Line 31: `multiplier = trips_per_year if view == "Per Year" else 1`. -/
def multiplier (view : View) : ℚ :=
  if view = PerYear then trips_per_year else 1

/-- Line 65: `base_factor = EMISSIONS_FACTORS[vehicle_type]`. -/
def base_factor (diet : Diet) (vehicle : Mode) : ℚ :=
  EMISSIONS_FACTORS diet vehicle

/-- Line 66: `emission_factor = base_factor / passengers`; `passengers`
here is the already-resolved count of lines 23-26. -/
def emission_factor (diet : Diet) (vehicle : Mode) (passengers : ℕ) : ℚ :=
  base_factor diet vehicle / passengers

/-- Line 67: `total_emissions = emission_factor * distance_km * multiplier`. -/
def total_emissions (diet : Diet) (vehicle : Mode) (passengers : ℕ)
    (distance_km : ℚ) (view : View) : ℚ :=
  emission_factor diet vehicle passengers * distance_km * multiplier view

/-- Line 74: the undivided vehicle total `base_factor * distance_km *
multiplier` shown when the car is shared. -/
def vehicle_total (diet : Diet) (vehicle : Mode) (distance_km : ℚ) (view : View) : ℚ :=
  base_factor diet vehicle * distance_km * multiplier view

/-- Line 77: `solo_car_emissions = embodied_emissions["Small Car"] *
distance_km * multiplier`. -/
def solo_car_emissions (distance_km : ℚ) (view : View) : ℚ :=
  embodied_emissions SmallCar * distance_km * multiplier view

/-- Line 78. -/
def emissions_saved_vs_solo (diet : Diet) (vehicle : Mode) (passengers : ℕ)
    (distance_km : ℚ) (view : View) : ℚ :=
  solo_car_emissions distance_km view -
    total_emissions diet vehicle passengers distance_km view

/-- The value computed for one mode by the comprehension on line 87:
`EMISSIONS_FACTORS[mode] / (passengers if mode == vehicle_type and mode
in ["Small Car", "Electric Car"] else 1) * distance_km * multiplier`. -/
def modeEntry (diet : Diet) (vehicle : Mode) (passengers : ℕ)
    (distance_km : ℚ) (view : View) (mode : Mode) : ℚ :=
  EMISSIONS_FACTORS diet mode /
      (if mode = vehicle ∧ mode ∈ carTypes then (passengers : ℚ) else 1) *
    distance_km * multiplier view

/-- Lines 86-89: the `emissions_data` dict comprehension, in the
iteration order of `EMISSIONS_FACTORS` (= insertion order of
`embodied_emissions`).  `passengers` is the resolved count. -/
def emissions_data (diet : Diet) (vehicle : Mode) (passengers : ℕ)
    (distance_km : ℚ) (view : View) : List (Mode × ℚ) :=
  modeOrder.map fun mode =>
    (mode, modeEntry diet vehicle passengers distance_km view mode)

/-- Line 92: `solo_baseline = embodied_emissions["Small Car"] *
distance_km * multiplier`. -/
def solo_baseline (distance_km : ℚ) (view : View) : ℚ :=
  embodied_emissions SmallCar * distance_km * multiplier view

/-- Line 93: savings of each mode relative to the solo small-car
baseline. -/
def savings_vs_car (diet : Diet) (vehicle : Mode) (passengers : ℕ)
    (distance_km : ℚ) (view : View) : List (Mode × ℚ) :=
  (emissions_data diet vehicle passengers distance_km view).map fun p =>
    (p.1, solo_baseline distance_km view - p.2)

/-- Line 96: `sorted_modes = sorted(emissions_data.items(), key=lambda x:
x[1])`.  Python's `sorted` is a stable sort ascending by the key; we
embed it as the (stable) `List.mergeSort` on the value component. -/
def sorted_modes (diet : Diet) (vehicle : Mode) (passengers : ℕ)
    (distance_km : ℚ) (view : View) : List (Mode × ℚ) :=
  (emissions_data diet vehicle passengers distance_km view).mergeSort
    fun a b => decide (a.2 ≤ b.2)

/-- The identifier strings of the mode selectbox (lines 11-20), as a
parse function on raw identifiers. -/
def parseMode : String → Option Mode
  | "Walking (including food fuel)" => some Walking
  | "Standard Bike" => some StandardBike
  | "Lightweight Bike" => some LightweightBike
  | "E-Bike" => some EBike
  | "Small Car" => some SmallCar
  | "Electric Car" => some ElectricCar
  | "Bus (per passenger)" => some Bus
  | "Local Electric Train" => some ElectricTrain
  | _ => none

/-- The identifier strings of the diet radio widget (line 35). -/
def parseDiet : String → Option Diet
  | "Average Western" => some AverageWestern
  | "Low-carbon / Plant-based" => some LowCarbonPlantBased
  | _ => none

/-- The single InvalidInput error kind, with its three causes. -/
inductive InvalidInput
  | negativeDistance
  | passengersOutOfRange
  | unknownEnum
deriving DecidableEq, Repr

/-- Raw input of one evaluation: distance, raw mode and diet identifiers,
raw passenger count, and view. -/
structure RawInput where
  distance_km : ℚ
  mode_id : String
  passengers : ℤ
  diet_id : String
  view : View

/-- The results structure consumed by the presentation layer. -/
structure CalculationResult where
  per_person_rate : ℚ
  total_emission : ℚ
  vehicleTotal : ℚ
  baselineTotal : ℚ
  saved_vs_baseline : ℚ
  all_modes : List (Mode × ℚ)
deriving DecidableEq, Repr

/-- Modelled from the spec: the `evaluate` entry point with its
InvalidInput validation (spec §4.1, §7) does not exist as a function in
the script; the script enforces the same input domains through its
widgets (`st.number_input` with `min_value=0.0` on line 9, the slider
bounds 1-5 on line 24, and the closed selectbox/radio option lists).
The computation performed after validation is the script's own
(lines 59-99). -/
def evaluate (input : RawInput) : Except InvalidInput CalculationResult :=
  match parseMode input.mode_id, parseDiet input.diet_id with
  | some vehicle, some diet =>
    if input.distance_km < 0 then .error .negativeDistance
    else if vehicle ∈ carTypes ∧ ¬ (1 ≤ input.passengers ∧ input.passengers ≤ 5) then
      .error .passengersOutOfRange
    else
      let p := resolvePassengers vehicle input.passengers.toNat
      .ok ⟨emission_factor diet vehicle p,
           total_emissions diet vehicle p input.distance_km input.view,
           vehicle_total diet vehicle input.distance_km input.view,
           solo_baseline input.distance_km input.view,
           emissions_saved_vs_solo diet vehicle p input.distance_km input.view,
           sorted_modes diet vehicle p input.distance_km input.view⟩
  | _, _ => .error .unknownEnum

/-! ### Shared helper lemmas -/

lemma factors_nonneg (diet : Diet) (mode : Mode) : 0 ≤ EMISSIONS_FACTORS diet mode := by
  cases diet <;> cases mode <;>
    norm_num [EMISSIONS_FACTORS, embodied_emissions, KCAL_PER_KM, food_emission_per_kcal]

lemma multiplier_pos (view : View) : 0 < multiplier view := by
  cases view <;> simp [multiplier, trips_per_year]

lemma mem_modeOrder (m : Mode) : m ∈ modeOrder := by
  cases m <;> simp [modeOrder]

lemma modeEntry_nonneg (diet : Diet) (vehicle : Mode) (passengers : ℕ)
    (d : ℚ) (view : View) (mode : Mode) (hd : 0 ≤ d) :
    0 ≤ modeEntry diet vehicle passengers d view mode := by
  unfold modeEntry
  refine mul_nonneg (mul_nonneg (div_nonneg (factors_nonneg diet mode) ?_) hd)
    (le_of_lt (multiplier_pos view))
  split
  · exact Nat.cast_nonneg passengers
  · norm_num

lemma sortRel_trans (a b c : Mode × ℚ) :
    decide (a.2 ≤ b.2) → decide (b.2 ≤ c.2) → decide (a.2 ≤ c.2) := by
  intro hab hbc
  simp only [decide_eq_true_eq] at hab hbc ⊢
  exact le_trans hab hbc

lemma sortRel_total (a b : Mode × ℚ) :
    decide (a.2 ≤ b.2) || decide (b.2 ≤ a.2) := by
  simpa using le_total a.2 b.2

/-! ### Claims -/

/-- Claim C1: for every input, the per-mode comparison vector
`emissions_data` assigns to each mode the value
`factors[mode] / passengers * distance_km * multiplier` when the mode
equals the selected mode and is SmallCar or ElectricCar, and
`factors[mode] * distance_km * multiplier` otherwise; in particular,
selecting SmallCar does not divide ElectricCar's entry, and vice
versa. -/
theorem C1_all_modes_asymmetric_division (diet : Diet) (vehicle : Mode)
    (passengers : ℕ) (d : ℚ) (view : View) :
    emissions_data diet vehicle passengers d view =
      modeOrder.map (fun mode =>
        (mode,
          if mode = vehicle ∧ (mode = SmallCar ∨ mode = ElectricCar) then
            EMISSIONS_FACTORS diet mode / passengers * d * multiplier view
          else
            EMISSIONS_FACTORS diet mode * d * multiplier view)) ∧
    (ElectricCar, EMISSIONS_FACTORS diet ElectricCar * d * multiplier view)
      ∈ emissions_data diet SmallCar passengers d view ∧
    (SmallCar, EMISSIONS_FACTORS diet SmallCar * d * multiplier view)
      ∈ emissions_data diet ElectricCar passengers d view := by
  refine ⟨?_, ?_, ?_⟩
  · unfold emissions_data modeEntry
    refine List.map_congr_left ?_
    intro mode _
    have hiff : (mode = vehicle ∧ mode ∈ carTypes) ↔
        (mode = vehicle ∧ (mode = SmallCar ∨ mode = ElectricCar)) := by
      simp [carTypes]
    refine congrArg (fun v => (mode, v)) ?_
    by_cases h : mode = vehicle ∧ mode ∈ carTypes
    · rw [if_pos h, if_pos (hiff.mp h)]
    · rw [if_neg h, if_neg (mt hiff.mpr h), div_one]
  · have hval : modeEntry diet SmallCar passengers d view ElectricCar =
        EMISSIONS_FACTORS diet ElectricCar * d * multiplier view := by
      simp [modeEntry]
    exact hval ▸ List.mem_map_of_mem
      (fun mode => (mode, modeEntry diet SmallCar passengers d view mode))
      (mem_modeOrder ElectricCar)
  · have hval : modeEntry diet ElectricCar passengers d view SmallCar =
        EMISSIONS_FACTORS diet SmallCar * d * multiplier view := by
      simp [modeEntry]
    exact hval ▸ List.mem_map_of_mem
      (fun mode => (mode, modeEntry diet ElectricCar passengers d view mode))
      (mem_modeOrder SmallCar)

/-- Claim C2: the solo small-car baseline equals the raw embodied
constant 0.44 times distance times multiplier, is independent of the
diet, and coincides with `EMISSIONS_FACTORS[SmallCar] * distance *
multiplier` because SmallCar has no calorie-table entry. -/
theorem C2_baseline_raw_embodied (diet : Diet) (d : ℚ) (view : View) :
    solo_baseline d view = 0.44 * d * multiplier view ∧
    solo_car_emissions d view = solo_baseline d view ∧
    KCAL_PER_KM SmallCar = none ∧
    solo_baseline d view = EMISSIONS_FACTORS diet SmallCar * d * multiplier view := by
  refine ⟨rfl, rfl, rfl, ?_⟩
  simp [solo_baseline, EMISSIONS_FACTORS, KCAL_PER_KM, embodied_emissions]

/-- Claim C3: for every diet, the factor table maps each of the eight
modes of the embodied table to
`embodied[mode] + kcal_per_km.get(mode, 0) * food_emission_per_kcal(diet)`,
with diet constants 0.0025 and 0.0012; modes absent from the calorie
table contribute zero food emissions, and every value is defined and
non-negative over the closed enumeration. -/
theorem C3_buildFactors_total (diet : Diet) (mode : Mode) :
    EMISSIONS_FACTORS diet mode =
      embodied_emissions mode +
        (KCAL_PER_KM mode).getD 0 * food_emission_per_kcal diet ∧
    food_emission_per_kcal AverageWestern = 0.0025 ∧
    food_emission_per_kcal LowCarbonPlantBased = 0.0012 ∧
    (KCAL_PER_KM mode = none →
      EMISSIONS_FACTORS diet mode = embodied_emissions mode) ∧
    mode ∈ modeOrder ∧
    0 ≤ EMISSIONS_FACTORS diet mode := by
  refine ⟨rfl, rfl, rfl, ?_, mem_modeOrder mode, factors_nonneg diet mode⟩
  intro h
  simp [EMISSIONS_FACTORS, h]

/-- Claim C3 witness: at diet AverageWestern and mode SmallCar the
hypothesis of the absent-calorie-entry conjunct holds and the factor
reduces to the embodied constant. -/
theorem C3_buildFactors_total_witness :
    EMISSIONS_FACTORS AverageWestern SmallCar = embodied_emissions SmallCar :=
  (C3_buildFactors_total AverageWestern SmallCar).2.2.2.1 rfl

/-- Claim C4: passengers resolve to the slider value exactly for the two
car types and to 1 otherwise, the view multiplier is 520 for PerYear and
1 for PerTrip, the scalar total is
`factors[mode] / passengers * distance * multiplier`, and distance 0
always yields total 0. -/
theorem C4_evaluate_scalar (diet : Diet) (vehicle : Mode) (slider : ℕ)
    (d : ℚ) (view : View) :
    resolvePassengers vehicle slider =
      (if vehicle = SmallCar ∨ vehicle = ElectricCar then slider else 1) ∧
    multiplier PerYear = 520 ∧
    multiplier PerTrip = 1 ∧
    total_emissions diet vehicle (resolvePassengers vehicle slider) d view =
      EMISSIONS_FACTORS diet vehicle / (resolvePassengers vehicle slider : ℚ) *
        d * multiplier view ∧
    total_emissions diet vehicle (resolvePassengers vehicle slider) 0 view = 0 := by
  refine ⟨?_, rfl, rfl, rfl, ?_⟩
  · simp [resolvePassengers, carTypes]
  · simp [total_emissions]

/-- Claim C6: switching the view from PerTrip to PerYear multiplies the
scalar total, the undivided vehicle total and the solo baseline each by
exactly 520. -/
theorem C6_per_year_scaling (diet : Diet) (vehicle : Mode) (passengers : ℕ)
    (d : ℚ) :
    total_emissions diet vehicle passengers d PerYear =
      520 * total_emissions diet vehicle passengers d PerTrip ∧
    vehicle_total diet vehicle d PerYear =
      520 * vehicle_total diet vehicle d PerTrip ∧
    solo_baseline d PerYear = 520 * solo_baseline d PerTrip := by
  refine ⟨?_, ?_, ?_⟩ <;>
    simp [total_emissions, vehicle_total, solo_baseline, multiplier,
      trips_per_year] <;>
    ring

/-- Claim C5: evaluation rejects with an InvalidInput error, and never
produces a computed result, exactly when the distance is negative, the
passenger count is outside 1..5 while the mode is a car type, or the
mode or diet identifier is unrecognized. -/
theorem C5_invalid_input_iff (input : RawInput) :
    (∃ e, evaluate input = Except.error e) ↔
      (input.distance_km < 0 ∨
       parseMode input.mode_id = none ∨
       parseDiet input.diet_id = none ∨
       ∃ vehicle, parseMode input.mode_id = some vehicle ∧ vehicle ∈ carTypes ∧
         ¬ (1 ≤ input.passengers ∧ input.passengers ≤ 5)) := by
  cases hm : parseMode input.mode_id with
  | none => simp [evaluate, hm]
  | some vehicle =>
    cases hdiet : parseDiet input.diet_id with
    | none => simp [evaluate, hm, hdiet]
    | some diet =>
      by_cases hneg : input.distance_km < 0
      · simp [evaluate, hm, hdiet, hneg]
      · by_cases hpass : vehicle ∈ carTypes ∧ ¬ (1 ≤ input.passengers ∧ input.passengers ≤ 5)
        · simp only [evaluate, hm, hdiet, if_neg hneg, if_pos hpass]
          constructor
          · intro _
            exact Or.inr (Or.inr (Or.inr ⟨vehicle, rfl, hpass.1, hpass.2⟩))
          · intro _
            exact ⟨InvalidInput.passengersOutOfRange, rfl⟩
        · simp only [evaluate, hm, hdiet, if_neg hneg, if_neg hpass]
          constructor
          · rintro ⟨e, he⟩
            cases he
          · rintro (h | h | h | ⟨v, hv, hcar, hpv⟩)
            · exact absurd h hneg
            · cases h
            · cases h
            · injection hv with hv
              subst hv
              exact absurd ⟨hcar, hpv⟩ hpass

/-- Claim C5 witness: a concrete out-of-range input (Small Car with 0
passengers) is rejected. -/
theorem C5_invalid_input_iff_witness :
    ∃ e, evaluate ⟨5, "Small Car", 0, "Average Western", View.PerTrip⟩ =
      Except.error e :=
  (C5_invalid_input_iff ⟨5, "Small Car", 0, "Average Western", View.PerTrip⟩).mpr
    (Or.inr (Or.inr (Or.inr ⟨SmallCar, rfl, by decide, by decide⟩)))

/-- Claim C7 counterexample: at distance 0, changing diet leaves the
Walking entry equal (zero) under both diets, so it does not strictly
decrease every food-powered mode's emission value. -/
theorem C7_diet_counterexample :
    ¬ modeEntry LowCarbonPlantBased Walking 1 0 PerTrip Walking <
        modeEntry AverageWestern Walking 1 0 PerTrip Walking := by
  simp [modeEntry]

/-- Claim C7 (amended): for positive distance, changing diet from
AverageWestern to LowCarbonPlantBased strictly decreases the emission
value of every food-powered mode and leaves the SmallCar, ElectricCar,
Bus and ElectricTrain values unchanged (the latter for every
distance). -/
theorem C7_diet_change_amended (vehicle : Mode) (passengers : ℕ) (d : ℚ)
    (view : View) :
    (0 < d →
      ∀ mode ∈ [Walking, StandardBike, LightweightBike, EBike],
        modeEntry LowCarbonPlantBased vehicle passengers d view mode <
          modeEntry AverageWestern vehicle passengers d view mode) ∧
    (∀ mode ∈ [SmallCar, ElectricCar, Bus, ElectricTrain],
      modeEntry LowCarbonPlantBased vehicle passengers d view mode =
        modeEntry AverageWestern vehicle passengers d view mode) := by
  have hmult := multiplier_pos view
  constructor
  · intro hd mode hmode
    have hnotcar : mode ∈ carTypes → False := by
      fin_cases hmode <;> simp [carTypes]
    rw [modeEntry, modeEntry, if_neg (fun h => hnotcar h.2), div_one]
    refine mul_lt_mul_of_pos_right (mul_lt_mul_of_pos_right ?_ hd) hmult
    fin_cases hmode <;>
      norm_num [EMISSIONS_FACTORS, embodied_emissions, KCAL_PER_KM,
        food_emission_per_kcal]
  · intro mode hmode
    have hfac : EMISSIONS_FACTORS LowCarbonPlantBased mode =
        EMISSIONS_FACTORS AverageWestern mode := by
      fin_cases hmode <;> simp [EMISSIONS_FACTORS, KCAL_PER_KM]
    rw [modeEntry, modeEntry, hfac]

/-- Claim C7 witness: at distance 1 the Walking entry strictly
decreases under the diet change. -/
theorem C7_diet_change_amended_witness :
    modeEntry LowCarbonPlantBased Walking 1 1 PerTrip Walking <
      modeEntry AverageWestern Walking 1 1 PerTrip Walking :=
  (C7_diet_change_amended Walking 1 1 PerTrip).1 one_pos Walking (by simp)

/-- Claim C8: for every input, the sorted comparison list is ascending
in the emission value, is a permutation of the per-mode data, and is
stable: entries of any fixed value keep the embodied table's insertion
order. -/
theorem C8_sorted_modes_ascending_stable (diet : Diet) (vehicle : Mode)
    (passengers : ℕ) (d : ℚ) (view : View) :
    (sorted_modes diet vehicle passengers d view).Pairwise
      (fun a b => a.2 ≤ b.2) ∧
    (sorted_modes diet vehicle passengers d view).Perm
      (emissions_data diet vehicle passengers d view) ∧
    ∀ v : ℚ,
      ((emissions_data diet vehicle passengers d view).filter
          (fun x => decide (x.2 = v))).Sublist
        (sorted_modes diet vehicle passengers d view) := by
  refine ⟨?_, ?_, ?_⟩
  · have h := List.sorted_mergeSort sortRel_trans sortRel_total
      (emissions_data diet vehicle passengers d view)
    exact h.imp (fun hab => by simpa using hab)
  · exact List.mergeSort_perm (emissions_data diet vehicle passengers d view) _
  · intro v
    refine List.sublist_mergeSort sortRel_trans sortRel_total ?_
      (List.filter_sublist _)
    refine List.pairwise_of_forall_mem_list ?_
    intro a ha b hb
    rw [List.mem_filter] at ha hb
    have ha2 : a.2 = v := by simpa using ha.2
    have hb2 : b.2 = v := by simpa using hb.2
    simp [ha2, hb2]

/-- Claim C9: the selected mode's entry in the comparison vector equals
the scalar total: the summary figure and the selected mode's bar always
agree. -/
theorem C9_selected_entry_matches_total (diet : Diet) (vehicle : Mode)
    (slider : ℕ) (d : ℚ) (view : View) :
    modeEntry diet vehicle (resolvePassengers vehicle slider) d view vehicle =
      total_emissions diet vehicle (resolvePassengers vehicle slider) d view ∧
    (vehicle, total_emissions diet vehicle (resolvePassengers vehicle slider) d view)
      ∈ emissions_data diet vehicle (resolvePassengers vehicle slider) d view := by
  have hval : modeEntry diet vehicle (resolvePassengers vehicle slider) d view vehicle =
      total_emissions diet vehicle (resolvePassengers vehicle slider) d view := by
    by_cases hcar : vehicle ∈ carTypes
    · rw [modeEntry, if_pos ⟨rfl, hcar⟩]
      rfl
    · have hres : resolvePassengers vehicle slider = 1 := by
        rw [resolvePassengers, if_neg hcar]
      rw [hres, modeEntry, if_neg (fun h => hcar h.2), div_one]
      simp [total_emissions, emission_factor, base_factor]
  refine ⟨hval, ?_⟩
  have hmem := List.mem_map_of_mem
    (fun mode =>
      (mode, modeEntry diet vehicle (resolvePassengers vehicle slider) d view mode))
    (mem_modeOrder vehicle)
  exact hval ▸ hmem

/-- Claim C10: with non-negative distance and at least one passenger,
every computed quantity is non-negative: the factors, the per-person
rate, the scalar total, the vehicle total, the baseline, and every
entry of the comparison vector. -/
theorem C10_nonnegativity (diet : Diet) (vehicle mode : Mode) (passengers : ℕ)
    (d : ℚ) (view : View) (hd : 0 ≤ d) (hp : 1 ≤ passengers) :
    0 ≤ EMISSIONS_FACTORS diet mode ∧
    0 ≤ emission_factor diet vehicle passengers ∧
    0 ≤ total_emissions diet vehicle passengers d view ∧
    0 ≤ vehicle_total diet vehicle d view ∧
    0 ≤ solo_baseline d view ∧
    ∀ x ∈ emissions_data diet vehicle passengers d view, 0 ≤ x.2 := by
  have hmult : (0:ℚ) ≤ multiplier view := le_of_lt (multiplier_pos view)
  have hef : 0 ≤ emission_factor diet vehicle passengers :=
    div_nonneg (factors_nonneg diet vehicle) (Nat.cast_nonneg passengers)
  refine ⟨factors_nonneg diet mode, hef, ?_, ?_, ?_, ?_⟩
  · exact mul_nonneg (mul_nonneg hef hd) hmult
  · exact mul_nonneg (mul_nonneg (factors_nonneg diet vehicle) hd) hmult
  · exact mul_nonneg (mul_nonneg (by norm_num [embodied_emissions]) hd) hmult
  · intro x hx
    obtain ⟨m, hm, rfl⟩ := List.mem_map.mp hx
    exact modeEntry_nonneg diet vehicle passengers d view m hd

/-- Claim C10 witness: the scalar total at a concrete valid input is
non-negative. -/
theorem C10_nonnegativity_witness :
    0 ≤ total_emissions AverageWestern SmallCar 1 0 PerTrip :=
  (C10_nonnegativity AverageWestern SmallCar SmallCar 1 0 PerTrip
    (le_refl 0) (le_refl 1)).2.2.1

end EmissionsModel
